import Mathlib

/-!
Verification development for the `tauri-plugin-macos-permissions` crate.

The crate (src/build.rs, src/src/lib.rs, src/src/commands.rs) is a Tauri
plugin exposing check/request command pairs for macOS privacy permissions.
Each command is compiled twice: a macOS body that calls into platform APIs,
and a fallback body for every other target.  We embed the commands as pure
Lean functions over an explicit model of the ambient OS state: the home
directory lookup, directory listability, the accessibility trust flag, the
screen-capture preflight flag, the AVFoundation authorization status keyed
by media-type string, and the behavior of spawning an external process.
Commands whose interesting content is *which* side effects they perform
(which directories are probed, which processes are spawned) additionally
get a `.._run` variant that also returns the trace of those effects.
-/

namespace MacosPermissions

/-- The compile-time target: `#[cfg(target_os = "macos")]` vs the rest. -/
inductive Platform
  | macos
  | other
deriving DecidableEq, Repr

/-- Captured output of a spawned process (`std::process::Output`):
exit code plus captured streams.  The command never inspects it. -/
structure ProcOutput where
  exitCode : Int
  stdoutData : String
  stderrData : String
deriving DecidableEq, Repr

/-- Ambient OS state visible to the commands.  `spawn prog arg` models
`Command::new(prog).arg(arg).output()`: `Except.error e` is a spawn
failure whose display text is `e` (the `error.to_string()` of the Rust
code), `Except.ok out` is a process that ran to completion with `out`. -/
structure OSState where
  homeDir : Option String
  readDirOk : String → Bool
  applicationIsTrusted : Bool
  applicationIsTrustedWithPrompt : Bool
  screenPreflight : Bool
  avAuthStatus : String → Int
  spawn : String → String → Except String ProcOutput

/-- `PathBuf::join` of a base directory and a relative component. -/
def pathJoin (base sub : String) : String :=
  base ++ "/" ++ sub

/-- The media-type string literal `check_microphone_permission` passes to
`authorizationStatusForMediaType` (src/src/commands.rs line 161). -/
def microphoneMediaType : String := "vide"

/-- The media-type string literal `check_audio_permission` passes to
`authorizationStatusForMediaType` (src/src/commands.rs line 212). -/
def audioMediaType : String := "soun"

/-- The AVFoundation constant `AVMediaTypeVideo`, whose raw value is
the four-character code for video. -/
def AVMediaTypeVideo : String := "vide"

/-- The AVFoundation constant `AVMediaTypeAudio`, whose raw value is
the four-character code for audio capture. -/
def AVMediaTypeAudio : String := "soun"

/-- `AVAuthorizationStatusAuthorized` (the comment in the source:
`// 3 is AVAuthorizationStatusAuthorized`). -/
def AVAuthorizationStatusAuthorized : Int := 3

/-- The two probe directories of `check_full_disk_access_permission`
(src/src/commands.rs line 67). -/
def check_dirs : List String :=
  ["Library/Containers/com.apple.stocks", "Library/Safari"]

/-- `check_accessibility_permission` (src/src/commands.rs lines 27-34). -/
def check_accessibility_permission (p : Platform) (s : OSState) : Bool :=
  match p with
  | .macos => s.applicationIsTrusted
  | .other => true

/-- `request_accessibility_permission` (src/src/commands.rs lines 44-48),
with the trace of native accessibility prompts it triggers. -/
def request_accessibility_run (p : Platform) (_s : OSState) :
    Unit × List String :=
  match p with
  | .macos => ((), ["application_is_trusted_with_prompt"])
  | .other => ((), [])

/-- `request_accessibility_permission`: the returned value alone. -/
def request_accessibility_permission (p : Platform) (s : OSState) : Unit :=
  (request_accessibility_run p s).1

/-- The macOS loop body of `check_full_disk_access_permission`
(src/src/commands.rs lines 70-74): walk the probe directories in order,
stopping at the first listable one; also record every directory actually
probed with `read_dir`. -/
def fdaProbeLoop (s : OSState) (home : String) :
    List String → Bool × List String
  | [] => (false, [])
  | d :: rest =>
    let probe := pathJoin home d
    if s.readDirOk probe then
      (true, [probe])
    else
      let r := fdaProbeLoop s home rest
      (r.1, probe :: r.2)

/-- `check_full_disk_access_permission` (src/src/commands.rs lines 62-86),
with the trace of directories probed via `read_dir`. -/
def check_full_disk_access_run (p : Platform) (s : OSState) :
    Bool × List String :=
  match p with
  | .macos =>
    match s.homeDir with
    | some home => fdaProbeLoop s home check_dirs
    | none => (false, [])
  | .other => (true, [])

/-- `check_full_disk_access_permission`: the returned boolean alone. -/
def check_full_disk_access_permission (p : Platform) (s : OSState) : Bool :=
  (check_full_disk_access_run p s).1

/-- Settings-pane URI opened by `request_full_disk_access_permission`
(src/src/commands.rs line 101). -/
def fullDiskAccessPane : String :=
  "x-apple.systempreferences:com.apple.preference.security?Privacy_AllFiles"

/-- Settings-pane URI opened by `request_microphone_permission`
(src/src/commands.rs line 187). -/
def microphonePane : String :=
  "x-apple.systempreferences:com.apple.preference.security?Privacy_Microphone"

/-- Settings-pane URI opened by `request_audio_permission`
(src/src/commands.rs line 238). -/
def audioPane : String :=
  "x-apple.systempreferences:com.apple.preference.security?Privacy_AudioRecording"

/-- Shared shape of the three settings-pane request commands: on macOS,
spawn `open <pane>` once, map a spawn error to its display text, and
ignore the process's output; elsewhere do nothing.  Also returns the
trace of spawn attempts `(program, argument)`. -/
def openPaneRun (pane : String) (p : Platform) (s : OSState) :
    Except String Unit × List (String × String) :=
  match p with
  | .macos =>
    match s.spawn "open" pane with
    | .ok _ => (.ok (), [("open", pane)])
    | .error e => (.error e, [("open", pane)])
  | .other => (.ok (), [])

/-- `request_full_disk_access_permission` (src/src/commands.rs lines
96-107), with its spawn trace. -/
def request_full_disk_access_run (p : Platform) (s : OSState) :
    Except String Unit × List (String × String) :=
  openPaneRun fullDiskAccessPane p s

/-- `request_full_disk_access_permission`: the returned value alone. -/
def request_full_disk_access_permission (p : Platform) (s : OSState) :
    Except String Unit :=
  (request_full_disk_access_run p s).1

/-- `check_screen_recording_permission` (src/src/commands.rs lines
121-128): `ScreenCaptureAccess::preflight` on macOS, `true` elsewhere. -/
def check_screen_recording_permission (p : Platform) (s : OSState) : Bool :=
  match p with
  | .macos => s.screenPreflight
  | .other => true

/-- `request_screen_recording_permission` (src/src/commands.rs lines
138-142), with the trace of native screen-capture prompts it triggers. -/
def request_screen_recording_run (p : Platform) (_s : OSState) :
    Unit × List String :=
  match p with
  | .macos => ((), ["ScreenCaptureAccess::request"])
  | .other => ((), [])

/-- `request_screen_recording_permission`: the returned value alone. -/
def request_screen_recording_permission (p : Platform) (s : OSState) : Unit :=
  (request_screen_recording_run p s).1

/-- `check_microphone_permission` (src/src/commands.rs lines 156-171):
query `authorizationStatusForMediaType` for `microphoneMediaType` and
compare against 3; `true` off macOS. -/
def check_microphone_permission (p : Platform) (s : OSState) : Bool :=
  match p with
  | .macos => decide (s.avAuthStatus microphoneMediaType = 3)
  | .other => true

/-- `request_microphone_permission` (src/src/commands.rs lines 182-193),
with its spawn trace. -/
def request_microphone_run (p : Platform) (s : OSState) :
    Except String Unit × List (String × String) :=
  openPaneRun microphonePane p s

/-- `request_microphone_permission`: the returned value alone. -/
def request_microphone_permission (p : Platform) (s : OSState) :
    Except String Unit :=
  (request_microphone_run p s).1

/-- `check_audio_permission` (src/src/commands.rs lines 207-222):
query `authorizationStatusForMediaType` for `audioMediaType` and
compare against 3; `true` off macOS. -/
def check_audio_permission (p : Platform) (s : OSState) : Bool :=
  match p with
  | .macos => decide (s.avAuthStatus audioMediaType = 3)
  | .other => true

/-- `request_audio_permission` (src/src/commands.rs lines 233-244),
with its spawn trace. -/
def request_audio_run (p : Platform) (s : OSState) :
    Except String Unit × List (String × String) :=
  openPaneRun audioPane p s

/-- `request_audio_permission`: the returned value alone. -/
def request_audio_permission (p : Platform) (s : OSState) :
    Except String Unit :=
  (request_audio_run p s).1

/-- The five permission kinds of the crate's command surface. -/
inductive PermissionKind
  | accessibility
  | fullDiskAccess
  | screenRecording
  | microphone
  | audio
deriving DecidableEq, Repr

/-- Dispatch to a kind's check command. -/
def check (k : PermissionKind) (p : Platform) (s : OSState) : Bool :=
  match k with
  | .accessibility => check_accessibility_permission p s
  | .fullDiskAccess => check_full_disk_access_permission p s
  | .screenRecording => check_screen_recording_permission p s
  | .microphone => check_microphone_permission p s
  | .audio => check_audio_permission p s

/-- A check invocation as a state transformer: the commands read the OS
state and hold no mutable state of their own, so the state comes back
unchanged (there is no `static`, cache or field anywhere in
src/src/commands.rs for them to write). -/
def checkRun (k : PermissionKind) (p : Platform) (s : OSState) :
    Bool × OSState :=
  (check k p s, s)

/-- `COMMANDS` of src/build.rs (lines 1-12): the command names the plugin
declares to the Tauri build, in source order. -/
def COMMANDS : List String :=
  ["check_accessibility_permission",
   "request_accessibility_permission",
   "check_full_disk_access_permission",
   "request_full_disk_access_permission",
   "check_screen_recording_permission",
   "request_screen_recording_permission",
   "check_microphone_permission",
   "request_microphone_permission",
   "check_audio_permission",
   "request_audio_permission"]

/-- The command functions actually defined in src/src/commands.rs, in
source order. -/
def definedCommands : List String :=
  ["check_accessibility_permission",
   "request_accessibility_permission",
   "check_full_disk_access_permission",
   "request_full_disk_access_permission",
   "check_screen_recording_permission",
   "request_screen_recording_permission",
   "check_microphone_permission",
   "request_microphone_permission",
   "check_audio_permission",
   "request_audio_permission"]

/-- The handler names `init` passes to `generate_handler!` in
src/src/lib.rs (lines 11-20). -/
def registeredHandlers : List String :=
  ["check_accessibility_permissions",
   "request_accessibility_permissions",
   "check_full_disk_access_permissions",
   "request_full_disk_access_permissions"]

/-! ### Helper lemmas -/

/-- The boolean a probe loop returns is the disjunction of the probes. -/
theorem fdaProbeLoop_fst (s : OSState) (home : String) (ds : List String) :
    (fdaProbeLoop s home ds).1 = ds.any (fun d => s.readDirOk (pathJoin home d)) := by
  induction ds with
  | nil => rfl
  | cons d rest ih =>
    simp only [fdaProbeLoop, List.any_cons]
    by_cases h : s.readDirOk (pathJoin home d) = true
    · simp [h]
    · simp only [Bool.not_eq_true] at h
      simp [h, ih]

/-- A settings-pane request spawns `open` exactly once on macOS. -/
theorem openPaneRun_trace (pane : String) (s : OSState) :
    (openPaneRun pane .macos s).2 = [("open", pane)] := by
  cases hs : s.spawn "open" pane with
  | ok out => simp [openPaneRun, hs]
  | error e => simp [openPaneRun, hs]

/-- A settings-pane request fails with `e` exactly when the spawn did. -/
theorem openPaneRun_error_iff (pane : String) (s : OSState) (e : String) :
    (openPaneRun pane .macos s).1 = .error e ↔ s.spawn "open" pane = .error e := by
  cases hs : s.spawn "open" pane with
  | ok out => simp [openPaneRun, hs]
  | error f => simp [openPaneRun, hs]

/-- A settings-pane request succeeds whenever the spawn did, whatever the
spawned process's exit status and output. -/
theorem openPaneRun_ok (pane : String) (s : OSState) (out : ProcOutput)
    (h : s.spawn "open" pane = .ok out) :
    (openPaneRun pane .macos s).1 = .ok () := by
  simp [openPaneRun, h]

/-- A settings-pane request reads nothing of the state but `spawn`. -/
theorem openPaneRun_congr (pane : String) (p : Platform) (s₁ s₂ : OSState)
    (h : s₁.spawn = s₂.spawn) :
    openPaneRun pane p s₁ = openPaneRun pane p s₂ := by
  cases p with
  | macos => unfold openPaneRun; rw [h]
  | other => rfl

/-! ### Concrete states used by witnesses and counterexamples -/

/-- Error text of a failed spawn, as `error.to_string()` would render it. -/
def spawnErrText : String := "No such file or directory (os error 2)"

/-- A macOS state whose home directory does not resolve. -/
def noneHomeState : OSState :=
  { homeDir := none
    readDirOk := fun _ => true
    applicationIsTrusted := false
    applicationIsTrustedWithPrompt := false
    screenPreflight := false
    avAuthStatus := fun _ => 0
    spawn := fun _ _ => .error spawnErrText }

/-- A macOS state where audio capture is authorized (status 3 for the
audio media type) but camera access is not determined (status 0 for the
video media type). -/
def micBugState : OSState :=
  { homeDir := some "/Users/alice"
    readDirOk := fun _ => false
    applicationIsTrusted := false
    applicationIsTrustedWithPrompt := false
    screenPreflight := false
    avAuthStatus := fun t => if t = AVMediaTypeAudio then 3 else 0
    spawn := fun _ _ => .error spawnErrText }

/-- A state where every spawn fails. -/
def errSpawnState : OSState :=
  { homeDir := some "/Users/alice"
    readDirOk := fun _ => false
    applicationIsTrusted := false
    applicationIsTrustedWithPrompt := false
    screenPreflight := false
    avAuthStatus := fun _ => 0
    spawn := fun _ _ => .error spawnErrText }

/-- A spawn that always succeeds, with the spawned process itself exiting
with a nonzero status and error output. -/
def okSpawnFailExit : String → String → Except String ProcOutput :=
  fun _ _ => .ok { exitCode := 1, stdoutData := "", stderrData := "open: failed" }

/-- A state where spawning succeeds but the process exits nonzero. -/
def okFailExitState : OSState :=
  { homeDir := some "/Users/alice"
    readDirOk := fun _ => false
    applicationIsTrusted := false
    applicationIsTrustedWithPrompt := false
    screenPreflight := false
    avAuthStatus := fun _ => 0
    spawn := okSpawnFailExit }

/-- A state with every permission granted. -/
def grantedState : OSState :=
  { homeDir := some "/Users/alice"
    readDirOk := fun _ => true
    applicationIsTrusted := true
    applicationIsTrustedWithPrompt := true
    screenPreflight := true
    avAuthStatus := fun _ => 3
    spawn := okSpawnFailExit }

/-- A state with every permission denied, with the same spawn behavior
as `grantedState`. -/
def deniedState : OSState :=
  { homeDir := some "/Users/alice"
    readDirOk := fun _ => false
    applicationIsTrusted := false
    applicationIsTrustedWithPrompt := false
    screenPreflight := false
    avAuthStatus := fun _ => 2
    spawn := okSpawnFailExit }

/-! ### Claim theorems -/

/-- C1: `check_full_disk_access_permission` returns `true` if and only if
the home directory resolves and at least one of the two probe directories
(`Library/Containers/com.apple.stocks`, `Library/Safari`) joined under it
is listable; if the home directory cannot be resolved, it returns `false`
without probing any directory. -/
theorem check_full_disk_access_spec (s : OSState) :
    (check_full_disk_access_permission .macos s = true ↔
      ∃ home, s.homeDir = some home ∧
        (s.readDirOk (pathJoin home "Library/Containers/com.apple.stocks") = true ∨
         s.readDirOk (pathJoin home "Library/Safari") = true)) ∧
    (s.homeDir = none → check_full_disk_access_run .macos s = (false, [])) := by
  cases hh : s.homeDir with
  | none =>
    refine ⟨⟨fun h => ?_, fun h => ?_⟩, fun _ => by
      simp [check_full_disk_access_run, hh]⟩
    · rw [check_full_disk_access_permission] at h
      simp [check_full_disk_access_run, hh] at h
    · obtain ⟨home, hhome, _⟩ := h
      exact Option.noConfusion hhome
  | some home =>
    refine ⟨?_, fun h => Option.noConfusion h⟩
    have hrun : check_full_disk_access_permission .macos s =
        (fdaProbeLoop s home check_dirs).1 := by
      simp [check_full_disk_access_permission, check_full_disk_access_run, hh]
    rw [hrun, fdaProbeLoop_fst]
    simp [check_dirs, hh]

/-- C1 witness: at a state whose home directory does not resolve, the
check returns `false` and probes nothing. -/
theorem check_full_disk_access_spec_witness :
    check_full_disk_access_run .macos noneHomeState = (false, []) :=
  (check_full_disk_access_spec noneHomeState).2 rfl

/-- C2 (code bug): `check_microphone_permission` passes the literal
`"vide"` — the raw value of `AVMediaTypeVideo` — to
`authorizationStatusForMediaType`, even though the source's own comment
says `// AVMediaTypeAudio constant`; at a state where audio capture is
authorized but the camera is not determined, it therefore returns
`false` although the audio-capture status is authorized. -/
theorem check_microphone_queries_video_media_type :
    microphoneMediaType = AVMediaTypeVideo ∧
    microphoneMediaType ≠ AVMediaTypeAudio ∧
    micBugState.avAuthStatus AVMediaTypeAudio = AVAuthorizationStatusAuthorized ∧
    check_microphone_permission .macos micBugState = false := by
  refine ⟨rfl, by decide, by decide, ?_⟩
  simp [check_microphone_permission, micBugState, microphoneMediaType, AVMediaTypeAudio]

/-- C3: on macOS both `check_microphone_permission` and
`check_audio_permission` return `true` exactly when the authorization
status they query equals the authorized value 3; every other status
yields `false`. -/
theorem check_av_authorized_iff (s : OSState) :
    (check_microphone_permission .macos s = true ↔
      s.avAuthStatus microphoneMediaType = AVAuthorizationStatusAuthorized) ∧
    (check_audio_permission .macos s = true ↔
      s.avAuthStatus audioMediaType = AVAuthorizationStatusAuthorized) := by
  constructor <;>
    simp [check_microphone_permission, check_audio_permission,
      AVAuthorizationStatusAuthorized]

/-- C4 counterexample: the broker does not expose twelve operations, and
not every exposed operation is registered with the host's invoke
handler — `COMMANDS` has ten entries and the handler list has four, none
of which even names a defined command. -/
theorem not_twelve_commands_all_registered :
    ¬ (COMMANDS.length = 12 ∧ ∀ c ∈ COMMANDS, c ∈ registeredHandlers) := by
  intro h
  exact absurd h.1 (by decide)

/-- C4 amended: the broker exposes ten operations (a check and a request
operation for each of five permission kinds) in the build-time command
list, which matches the commands defined in the source; the runtime
invoke handler registers only four handler names, and none of them
matches any defined command (they are pluralized). -/
theorem ten_commands_four_handlers :
    COMMANDS.length = 10 ∧
    definedCommands = COMMANDS ∧
    registeredHandlers.length = 4 ∧
    ∀ h ∈ registeredHandlers, h ∉ definedCommands := by
  decide

/-- C4 amended witness: the first registered handler name is not among
the defined commands. -/
theorem ten_commands_four_handlers_witness :
    "check_accessibility_permissions" ∉ definedCommands :=
  ten_commands_four_handlers.2.2.2 "check_accessibility_permissions" (by decide)

/-- C5: off macOS, every check operation returns `true`, and every
request operation performs no side effect and returns success. -/
theorem other_platform_fallback (s : OSState) :
    (∀ k, check k .other s = true) ∧
    request_accessibility_permission .other s = () ∧
    request_screen_recording_permission .other s = () ∧
    request_full_disk_access_permission .other s = .ok () ∧
    request_microphone_permission .other s = .ok () ∧
    request_audio_permission .other s = .ok () ∧
    (request_accessibility_run .other s).2 = [] ∧
    (request_screen_recording_run .other s).2 = [] ∧
    (request_full_disk_access_run .other s).2 = [] ∧
    (request_microphone_run .other s).2 = [] ∧
    (request_audio_run .other s).2 = [] := by
  refine ⟨fun k => ?_, rfl, rfl, rfl, rfl, rfl, rfl, rfl, rfl, rfl, rfl⟩
  cases k <;> rfl

/-- C6: every check is a total boolean-valued function; the two requests
that return unit (`request_accessibility_permission`,
`request_screen_recording_permission`) have no error path, and the three
settings-pane requests fail only when the underlying spawn failed, with
that spawn's error. -/
theorem requests_error_only_from_spawn (p : Platform) (s : OSState) :
    (∀ k, check k p s = true ∨ check k p s = false) ∧
    request_accessibility_permission p s = () ∧
    request_screen_recording_permission p s = () ∧
    (∀ e, request_full_disk_access_permission p s = .error e →
      s.spawn "open" fullDiskAccessPane = .error e) ∧
    (∀ e, request_microphone_permission p s = .error e →
      s.spawn "open" microphonePane = .error e) ∧
    (∀ e, request_audio_permission p s = .error e →
      s.spawn "open" audioPane = .error e) := by
  refine ⟨fun k => Bool.eq_false_or_eq_true (check k p s),
    rfl, rfl, ?_, ?_, ?_⟩ <;>
  · intro e he
    cases p with
    | macos => exact (openPaneRun_error_iff _ s e).mp he
    | other => exact Except.noConfusion he

/-- C6 witness: at a state whose spawns all fail, the full-disk-access
request's error is traced back to the spawn failure. -/
theorem requests_error_only_from_spawn_witness :
    errSpawnState.spawn "open" fullDiskAccessPane = .error spawnErrText :=
  (requests_error_only_from_spawn .macos errSpawnState).2.2.2.1 spawnErrText rfl

/-- C7: each of the three settings-pane requests performs exactly one
spawn of `open` with its fixed, kind-specific pane identifier; the three
identifiers are pairwise distinct; and a spawn failure is surfaced as
exactly the spawn error's text, with no further attempt. -/
theorem settings_pane_requests (s : OSState) :
    (request_full_disk_access_run .macos s).2 = [("open", fullDiskAccessPane)] ∧
    (request_microphone_run .macos s).2 = [("open", microphonePane)] ∧
    (request_audio_run .macos s).2 = [("open", audioPane)] ∧
    fullDiskAccessPane ≠ microphonePane ∧
    fullDiskAccessPane ≠ audioPane ∧
    microphonePane ≠ audioPane ∧
    (∀ e, s.spawn "open" fullDiskAccessPane = .error e →
      request_full_disk_access_permission .macos s = .error e) ∧
    (∀ e, s.spawn "open" microphonePane = .error e →
      request_microphone_permission .macos s = .error e) ∧
    (∀ e, s.spawn "open" audioPane = .error e →
      request_audio_permission .macos s = .error e) := by
  refine ⟨openPaneRun_trace _ s, openPaneRun_trace _ s, openPaneRun_trace _ s,
    by decide, by decide, by decide, ?_, ?_, ?_⟩ <;>
    exact fun e he => (openPaneRun_error_iff _ s e).mpr he

/-- C7 witness: at a state whose spawns all fail, the microphone request
returns exactly the spawn error text. -/
theorem settings_pane_requests_witness :
    request_microphone_permission .macos errSpawnState = .error spawnErrText :=
  (settings_pane_requests errSpawnState).2.2.2.2.2.2.2.1 spawnErrText rfl

/-- C8: for the three settings-pane requests, a successful spawn yields
`Ok(())` regardless of the spawned process's exit status or output; an
error arises only from the spawn itself. -/
theorem spawn_ok_yields_ok (s : OSState) :
    (∀ out, s.spawn "open" fullDiskAccessPane = .ok out →
      request_full_disk_access_permission .macos s = .ok ()) ∧
    (∀ out, s.spawn "open" microphonePane = .ok out →
      request_microphone_permission .macos s = .ok ()) ∧
    (∀ out, s.spawn "open" audioPane = .ok out →
      request_audio_permission .macos s = .ok ()) := by
  refine ⟨?_, ?_, ?_⟩ <;> exact fun out h => openPaneRun_ok _ s out h

/-- C8 witness: at a state where spawning succeeds but the spawned
process exits with status 1 and error output, the request still returns
success. -/
theorem spawn_ok_yields_ok_witness :
    request_full_disk_access_permission .macos okFailExitState = .ok () :=
  (spawn_ok_yields_ok okFailExitState).1
    { exitCode := 1, stdoutData := "", stderrData := "open: failed" } rfl

/-- C9: every check is a pure query of the OS state: it leaves the state
unchanged, and a second invocation against the resulting state returns
the same boolean. -/
theorem check_pure (k : PermissionKind) (p : Platform) (s : OSState) :
    (checkRun k p s).2 = s ∧
    (checkRun k p (checkRun k p s).2).1 = (checkRun k p s).1 :=
  ⟨rfl, rfl⟩

/-- C10: the settings-pane and prompt requests are independent of the
grant state — two states with the same spawn behavior produce identical
request results and traces, and on macOS the full-disk-access and
microphone requests open their settings pane unconditionally, even when
the corresponding permission is already granted. -/
theorem requests_unconditional (p : Platform) (s₁ s₂ : OSState)
    (h : s₁.spawn = s₂.spawn) :
    request_full_disk_access_run p s₁ = request_full_disk_access_run p s₂ ∧
    request_microphone_run p s₁ = request_microphone_run p s₂ ∧
    request_audio_run p s₁ = request_audio_run p s₂ ∧
    request_accessibility_run p s₁ = request_accessibility_run p s₂ ∧
    request_screen_recording_run p s₁ = request_screen_recording_run p s₂ ∧
    (request_full_disk_access_run .macos s₁).2 = [("open", fullDiskAccessPane)] ∧
    (request_microphone_run .macos s₁).2 = [("open", microphonePane)] := by
  exact ⟨openPaneRun_congr _ p s₁ s₂ h, openPaneRun_congr _ p s₁ s₂ h,
    openPaneRun_congr _ p s₁ s₂ h, rfl, rfl,
    openPaneRun_trace _ s₁, openPaneRun_trace _ s₁⟩

/-- C10 witness: a fully granted state and a fully denied state with the
same spawn behavior get identical full-disk-access request runs, and the
granted state still opens the settings pane. -/
theorem requests_unconditional_witness :
    request_full_disk_access_run .macos grantedState =
      request_full_disk_access_run .macos deniedState ∧
    (request_full_disk_access_run .macos grantedState).2 =
      [("open", fullDiskAccessPane)] :=
  ⟨(requests_unconditional .macos grantedState deniedState rfl).1,
   (requests_unconditional .macos grantedState deniedState rfl).2.2.2.2.2.1⟩

end MacosPermissions
